import Mathlib

/-!
Verification of the starburst-api session/token lifecycle core.

The definitions below are a shallow embedding of the repository's
token-issuance and rotation code:

* `src/auth/token.ts` — `generateAccessToken` / `verifyAccessToken`
  (wrappers over the `jsonwebtoken` library, modelled transparently);
* `src/database/models/tokens.ts` — the `RefreshToken` mongoose model
  statics `createToken` and `verifyExpiration`;
* `src/auth/controller.ts` — the route handlers `signOut` and
  `refreshAccessToken`.

Times are integer milliseconds (`Date.now()`), the MongoDB
`refresh_tokens` collection is a list of records, and `findOne` is
first-match search.  Token generation (`uuidv4`) and the JWT secret /
TTL configuration are inputs to the functions.
-/

namespace Starburst

/-- Error codes thrown by the token module (`TokenErrorCodes` in
`src/auth/error.ts`): `'bad-token'`, `'expired-token'`,
`'unknown-token-error'`. -/
inductive TokenErrorCode
  | badToken
  | expiredToken
  | unknownTokenError
deriving DecidableEq, Repr

/-- Errors handed to the `jwt.verify` callback by the `jsonwebtoken`
library: `TokenExpiredError`, a plain `JsonWebTokenError` (bad
signature / unparseable structure), or some other internal error. -/
inductive JwtErr
  | expired
  | invalid
  | other
deriving DecidableEq, Repr

/-- A decoded JWT payload.  The server always signs `{ uid }`, but a
verified payload may in general lack the `uid` field. -/
structure JwtPayload where
  uid : Option String
deriving DecidableEq, Repr

/-- Shallow model of an encoded JWT string: either a well-formed signed
token (payload, `exp` claim, signing secret) or an unparseable blob. -/
inductive Jwt
  | signed (uid : Option String) (exp : Int) (secret : String)
  | malformed (raw : String)
deriving DecidableEq, Repr

/-- `err instanceof TokenExpiredError`. -/
def isTokenExpiredError : Option JwtErr → Bool
  | some .expired => true
  | _ => false

/-- `err instanceof JsonWebTokenError`.  In `jsonwebtoken`,
`TokenExpiredError` extends `JsonWebTokenError`. -/
def isJsonWebTokenError : Option JwtErr → Bool
  | some .expired => true
  | some .invalid => true
  | _ => false

/-- Model of the `jsonwebtoken` library's `jwt.verify(token, secret, cb)`:
the callback receives `(err, payload)` — an error exactly when the
payload is absent.  Signature is checked first; a token is expired when
the clock has reached its `exp` claim. -/
def jwtVerify (t : Jwt) (secret : String) (now : Int) :
    Option JwtErr × Option JwtPayload :=
  match t with
  | .malformed _ => (some .invalid, none)
  | .signed uid exp s =>
      if s ≠ secret then (some .invalid, none)
      else if exp ≤ now then (some .expired, none)
      else (none, some ⟨uid⟩)

/-- The body of the callback passed to `jwt.verify` in
`verifyAccessToken` (`src/auth/token.ts` lines 53–69): dispatches on
`err` / `payload` and either rejects with a `TokenErrorCode` or
resolves `payload.uid`. -/
def verifyCallback (err : Option JwtErr) (payload : Option JwtPayload) :
    Except TokenErrorCode (Option String) :=
  if err.isSome || payload.isNone then
    if isTokenExpiredError err then .error .expiredToken
    else if isJsonWebTokenError err || payload.isNone then .error .badToken
    else .error .unknownTokenError
  else
    .ok (match payload with
      | some p => p.uid
      | none => none)

/-- `generateAccessToken` (`src/auth/token.ts` lines 20–42): signs
`{ uid }` with the secret, expiring `ttl` after `now`
(`expiresIn: tokenConfig.accessTokenExpireTime`). -/
def generateAccessToken (uid : String) (secret : String) (now ttl : Int) : Jwt :=
  .signed (some uid) (now + ttl) secret

/-- `verifyAccessToken` (`src/auth/token.ts` lines 49–71): runs
`jwt.verify` and the dispatch callback. -/
def verifyAccessToken (t : Jwt) (secret : String) (now : Int) :
    Except TokenErrorCode (Option String) :=
  let res := jwtVerify t secret now
  verifyCallback res.1 res.2

/-- A document of the `refresh_tokens` collection
(`RefreshTokenSchema` in `src/database/models/tokens.ts`): `token` is a
string or `null` (set to `null` on sign-out), `user` the owning user id,
`expiryDate` an absolute timestamp. -/
structure RTRecord where
  user : String
  token : Option String
  expiryDate : Int
deriving DecidableEq, Repr

/-- The `refresh_tokens` collection. -/
abbrev Store := List RTRecord

/-- `RefreshToken.findOne({ user })`. -/
def findOneUser (store : Store) (uid : String) : Option RTRecord :=
  store.find? (fun r => r.user == uid)

/-- `RefreshToken.findOne({ token })` with a (non-null) string filter.
A record whose `token` is `null` never matches. -/
def findOneToken (store : Store) (t : String) : Option RTRecord :=
  store.find? (fun r => r.token == some t)

/-- `findOne` followed by mutating the found document and `doc.save()`:
updates the first record satisfying `p` in place. -/
def updateFirst (p : RTRecord → Bool) (f : RTRecord → RTRecord) :
    Store → Store
  | [] => []
  | r :: rs => if p r then f r :: rs else r :: updateFirst p f rs

/-- `RefreshTokenSchema.statics.verifyExpiration`
(`src/database/models/tokens.ts` lines 63–67):
`token.token ? Date.now() < token.expiryDate.getTime() : true`. -/
def verifyExpiration (r : RTRecord) (now : Int) : Bool :=
  match r.token with
  | some _ => decide (now < r.expiryDate)
  | none => true

/-- `RefreshTokenSchema.statics.createToken`
(`src/database/models/tokens.ts` lines 39–62): computes
`expiredAt = now + ttl`, draws a fresh uuid (`freshTok`, an input of
the model), then either overwrites the `token` field of the user's
existing record (leaving `expiryDate` as it was) or inserts a new
record with `expiryDate = expiredAt`.  Returns the fresh token. -/
def createToken (store : Store) (userId : String) (now ttl : Int)
    (freshTok : String) : String × Store :=
  let expiredAt := now + ttl
  match findOneUser store userId with
  | some _ =>
      (freshTok,
        updateFirst (fun r => r.user == userId)
          (fun r => { r with token := some freshTok }) store)
  | none => (freshTok, store ++ [⟨userId, some freshTok, expiredAt⟩])

/-- `signOut` (`src/auth/controller.ts` lines 439–461): rejects a falsy
`uid` with 400, otherwise sets `token = null` on the user's record if
one exists and responds 200 ok.  The `Bool` is whether the 200-ok
response was sent. -/
def signOut (store : Store) (uid : String) : Bool × Store :=
  if uid = "" then (false, store)
  else
    match findOneUser store uid with
    | some _ =>
        (true,
          updateFirst (fun r => r.user == uid)
            (fun r => { r with token := none }) store)
    | none => (true, store)

/-- Outcome of the `refreshAccessToken` route handler:
400 invalid-params, 401 invalid-refresh-token, 403 expired-token, or
200 with the new `{accessToken, refreshToken}` pair. -/
inductive RefreshResult
  | invalidParams
  | invalidRefreshToken
  | expiredTokenResp
  | success (accessToken : Jwt) (refreshToken : String)
deriving DecidableEq, Repr

/-- The lookup step of `refreshAccessToken` (`src/auth/controller.ts`
line 481): `RefreshToken.findOne({ token: refreshToken })`. -/
def refreshLookup (store : Store) (presented : String) : Option RTRecord :=
  findOneToken store presented

/-- The remainder of `refreshAccessToken` (`src/auth/controller.ts`
lines 482–527) given the document read by `refreshLookup`:
`expired = verifyExpiration(token)`; when `!expired`, look up the owning
user (401 invalid-refresh-token if gone), rotate via `createToken` and
mint an access token; when `expired`, respond 403 expired-token.
This step runs against the store as it is at that moment, which may
differ from the store the lookup read. -/
def refreshRotate (store : Store) (users : List String)
    (found : Option RTRecord) (now refreshTtl accessTtl : Int)
    (secret freshTok : String) : RefreshResult × Store :=
  match found with
  | none => (.invalidRefreshToken, store)
  | some token =>
      let expired := verifyExpiration token now
      if !expired then
        match users.find? (fun u => u == token.user) with
        | none => (.invalidRefreshToken, store)
        | some user =>
            let rot := createToken store user now refreshTtl freshTok
            let accessToken := generateAccessToken user secret now accessTtl
            (.success accessToken rot.1, rot.2)
      else (.expiredTokenResp, store)

/-- `refreshAccessToken` (`src/auth/controller.ts` lines 468–528), run
as one sequential call: falsy-body check, then lookup, then the
rotation step against the same store. -/
def refreshAccessToken (store : Store) (users : List String)
    (presented : Option String) (now refreshTtl accessTtl : Int)
    (secret freshTok : String) : RefreshResult × Store :=
  match presented with
  | none => (.invalidParams, store)
  | some t =>
      if t = "" then (.invalidParams, store)
      else
        refreshRotate store users (refreshLookup store t) now refreshTtl
          accessTtl secret freshTok

/-- Two `refreshAccessToken` calls presenting the same token,
interleaved so that both `findOne` reads happen before either rotation
writes — an interleaving the single-threaded-per-await Node runtime
permits, since the handler awaits between the lookup and the save. -/
def refreshPairInterleaved (store : Store) (users : List String)
    (t : String) (now refreshTtl accessTtl : Int)
    (secret freshA freshB : String) :
    RefreshResult × RefreshResult × Store :=
  let foundA := refreshLookup store t
  let foundB := refreshLookup store t
  let stepA := refreshRotate store users foundA now refreshTtl accessTtl
    secret freshA
  let stepB := refreshRotate stepA.2 users foundB now refreshTtl accessTtl
    secret freshB
  (stepA.1, stepB.1, stepB.2)

/-- Two `refreshAccessToken` calls presenting the same token, run to
completion one after the other (the second reads the store the first
left behind). -/
def refreshPairSerialized (store : Store) (users : List String)
    (t : String) (now refreshTtl accessTtl : Int)
    (secret freshA freshB : String) :
    RefreshResult × RefreshResult × Store :=
  let stepA := refreshAccessToken store users (some t) now refreshTtl
    accessTtl secret freshA
  let stepB := refreshAccessToken stepA.2 users (some t) now refreshTtl
    accessTtl secret freshB
  (stepA.1, stepB.1, stepB.2)

/-- The one-live-record-per-subject invariant: no two documents of the
`refresh_tokens` collection share a `user`. -/
abbrev UsersUnique (store : Store) : Prop :=
  (store.map RTRecord.user).Nodup

/-! ## Helper lemmas -/

theorem updateFirst_map_user (p : RTRecord → Bool) (f : RTRecord → RTRecord)
    (hf : ∀ x, (f x).user = x.user) (store : Store) :
    (updateFirst p f store).map RTRecord.user = store.map RTRecord.user := by
  induction store with
  | nil => rfl
  | cons a l ih => by_cases h : p a <;> simp [updateFirst, h, hf, ih]

theorem updateFirst_length (p : RTRecord → Bool) (f : RTRecord → RTRecord)
    (store : Store) : (updateFirst p f store).length = store.length := by
  induction store with
  | nil => rfl
  | cons a l ih => by_cases h : p a <;> simp [updateFirst, h, ih]

theorem updateFirst_idem (p : RTRecord → Bool) (f : RTRecord → RTRecord)
    (hp : ∀ x, p x = true → p (f x) = true) (hff : ∀ x, f (f x) = f x)
    (store : Store) :
    updateFirst p f (updateFirst p f store) = updateFirst p f store := by
  induction store with
  | nil => rfl
  | cons a l ih =>
    by_cases h : p a
    · simp [updateFirst, h, hp a h, hff a]
    · simp [updateFirst, h, ih]

theorem findOneUser_isSome_iff (store : Store) (u : String) :
    (findOneUser store u).isSome ↔ u ∈ store.map RTRecord.user := by
  simp [findOneUser, List.find?_isSome, List.mem_map, beq_iff_eq]

theorem findOneUser_updateFirst (u : String) (f : RTRecord → RTRecord)
    (hf : ∀ x, (f x).user = x.user) :
    ∀ (store : Store) (r : RTRecord), findOneUser store u = some r →
      findOneUser (updateFirst (fun x => x.user == u) f store) u = some (f r) := by
  intro store
  induction store with
  | nil => intro r hr; simp [findOneUser] at hr
  | cons a l ih =>
    intro r hr
    by_cases h : (a.user == u)
    · have hra : r = a := by
        rw [findOneUser, @List.find?_cons_of_pos _ (fun x => x.user == u) a l h] at hr
        exact (Option.some.inj hr).symm
      subst hra
      rw [show updateFirst (fun x => x.user == u) f (r :: l) = f r :: l from by
        simp [updateFirst, h]]
      have hfr : ((f r).user == u) = true := by
        rw [beq_iff_eq, hf r]
        rwa [beq_iff_eq] at h
      rw [findOneUser, @List.find?_cons_of_pos _ (fun x => x.user == u) (f r) _ hfr]
    · have hr' : findOneUser l u = some r := by
        rw [findOneUser, @List.find?_cons_of_neg _ (fun x => x.user == u) a l h] at hr
        exact hr
      rw [show updateFirst (fun x => x.user == u) f (a :: l)
            = a :: updateFirst (fun x => x.user == u) f l from by
        simp [updateFirst, h]]
      rw [findOneUser, @List.find?_cons_of_neg _ (fun x => x.user == u) a _ h]
      exact ih r hr'

/-- Rotating (or revoking) the record that holds token `t` removes `t`
from the collection: if the record found by token `t` belongs to `S`,
token values are not duplicated, records have distinct users, and the
update gives the record a token other than `t`, then a token-lookup of
`t` afterwards finds nothing. -/
theorem findOneToken_updateFirst_none (t S : String) (f : RTRecord → RTRecord)
    (hf : ∀ x, (f x).token ≠ some t) :
    ∀ store : Store, UsersUnique store →
      store.countP (fun x => x.token == some t) ≤ 1 →
      ∀ r : RTRecord, findOneToken store t = some r → r.user = S →
      findOneToken (updateFirst (fun x => x.user == S) f store) t = none := by
  intro store
  induction store with
  | nil => intro _ _ r hr _; simp [findOneToken] at hr
  | cons a l ih =>
    intro hU hT r hr hrS
    have hUl : (RTRecord.user a ∉ l.map RTRecord.user) ∧ (l.map RTRecord.user).Nodup :=
      List.nodup_cons.mp (by simpa [UsersUnique] using hU)
    by_cases ha : (a.token == some t)
    · have hra : r = a := by
        rw [findOneToken, @List.find?_cons_of_pos _ (fun x => x.token == some t) a l ha] at hr
        exact (Option.some.inj hr).symm
      subst hra
      have hpa : (r.user == S) = true := by rw [beq_iff_eq]; exact hrS
      rw [show updateFirst (fun x => x.user == S) f (r :: l) = f r :: l from by
        simp [updateFirst, hpa]]
      have hfr : ¬((f r).token == some t) = true := by
        simp only [beq_iff_eq]
        exact hf r
      rw [findOneToken, @List.find?_cons_of_neg _ (fun x => x.token == some t) (f r) _ hfr]
      apply List.find?_eq_none.mpr
      intro x hx
      have hzero : l.countP (fun x => x.token == some t) = 0 := by
        have h1 := hT
        rw [@List.countP_cons_of_pos _ (fun x => x.token == some t) r l ha] at h1
        omega
      exact List.countP_eq_zero.mp hzero x hx
    · have hr' : findOneToken l t = some r := by
        rw [findOneToken, @List.find?_cons_of_neg _ (fun x => x.token == some t) a l ha] at hr
        exact hr
      have hmem : r ∈ l := List.mem_of_find?_eq_some hr'
      have haS : ¬(a.user == S) = true := by
        rw [beq_iff_eq]
        intro hcontra
        exact hUl.1 (by rw [hcontra, ← hrS]; exact List.mem_map_of_mem RTRecord.user hmem)
      rw [show updateFirst (fun x => x.user == S) f (a :: l)
            = a :: updateFirst (fun x => x.user == S) f l from by
        simp [updateFirst, haS]]
      rw [findOneToken, @List.find?_cons_of_neg _ (fun x => x.token == some t) a _ ha]
      have hT' : l.countP (fun x => x.token == some t) ≤ 1 := by
        have h1 := hT
        rw [List.countP_cons] at h1
        omega
      exact ih hUl.2 hT' r hr' hrS

theorem createToken_snd_of_mem (store : Store) (u : String) (now ttl : Int)
    (g : String) (hmem : ∃ x ∈ store, x.user = u) :
    (createToken store u now ttl g).2 =
      updateFirst (fun x => x.user == u) (fun x => { x with token := some g }) store := by
  have hsome : (findOneUser store u).isSome := by
    rw [findOneUser, List.find?_isSome]
    obtain ⟨x, hx, hxu⟩ := hmem
    exact ⟨x, hx, by rw [beq_iff_eq]; exact hxu⟩
  obtain ⟨v, hv⟩ := Option.isSome_iff_exists.mp hsome
  simp [createToken, hv]

/-- A successful run of the rotation step pinpoints its path: the
lookup found a record, the expiry flag was false, and the store it
leaves behind is the one `createToken` produces for the record's
owner. -/
theorem refreshRotate_success (store : Store) (users : List String)
    (found : Option RTRecord) (now rtl atl : Int) (sec g : String)
    (a : Jwt) (k : String)
    (h : (refreshRotate store users found now rtl atl sec g).1 = .success a k) :
    ∃ r, found = some r ∧ verifyExpiration r now = false ∧
      (refreshRotate store users found now rtl atl sec g).2 =
        (createToken store r.user now rtl g).2 := by
  cases found with
  | none => simp [refreshRotate] at h
  | some tok =>
    cases hexp : verifyExpiration tok now with
    | true => rw [refreshRotate] at h; simp [hexp] at h
    | false =>
      cases huser : users.find? (fun u => u == tok.user) with
      | none => rw [refreshRotate] at h; simp [hexp, huser] at h
      | some u =>
        have hu : u = tok.user := by
          have := List.find?_some huser
          rwa [beq_iff_eq] at this
        refine ⟨tok, rfl, hexp, ?_⟩
        rw [refreshRotate]
        simp [hexp, huser, hu]

/-- Core of reuse detection as the code realises it: once a
`refreshAccessToken` call has answered success for presented token `t`,
a subsequent call presenting `t` against the store it left behind takes
the 401 invalid-refresh-token exit, because the store no longer holds
`t`. -/
theorem rotation_core (store : Store) (users : List String) (t : String)
    (now rtl atl : Int) (sec g : String) (a : Jwt) (k : String)
    (users2 : List String) (now2 rtl2 atl2 : Int) (sec2 g2 : String)
    (hU : UsersUnique store)
    (hT : store.countP (fun x => x.token == some t) ≤ 1)
    (hg : g ≠ t)
    (h1 : (refreshAccessToken store users (some t) now rtl atl sec g).1 = .success a k) :
    (refreshAccessToken (refreshAccessToken store users (some t) now rtl atl sec g).2
        users2 (some t) now2 rtl2 atl2 sec2 g2).1 = .invalidRefreshToken := by
  have ht : ¬(t = "") := by
    intro he
    rw [refreshAccessToken] at h1
    simp [he] at h1
  have hdef : refreshAccessToken store users (some t) now rtl atl sec g =
      refreshRotate store users (refreshLookup store t) now rtl atl sec g := by
    rw [refreshAccessToken]
    simp [ht]
  rw [hdef] at h1 ⊢
  obtain ⟨r, hfound, _, hsnd⟩ :=
    refreshRotate_success store users (refreshLookup store t) now rtl atl sec g a k h1
  have hmem : r ∈ store := by
    have : List.find? (fun x => x.token == some t) store = some r := hfound
    exact List.mem_of_find?_eq_some this
  have hsnd' : (refreshRotate store users (refreshLookup store t) now rtl atl sec g).2 =
      updateFirst (fun x => x.user == r.user)
        (fun x => { x with token := some g }) store := by
    rw [hsnd, createToken_snd_of_mem]
    exact ⟨r, hmem, rfl⟩
  have hnone : findOneToken (updateFirst (fun x => x.user == r.user)
      (fun x => { x with token := some g }) store) t = none := by
    apply findOneToken_updateFirst_none t r.user _ ?_ store hU hT r hfound rfl
    intro x hx
    exact hg (Option.some.inj hx)
  rw [hsnd']
  rw [refreshAccessToken]
  simp only [ht, if_false]
  rw [show refreshLookup (updateFirst (fun x => x.user == r.user)
        (fun x => { x with token := some g }) store) t = none from hnone]
  rfl

theorem usersUnique_createToken (store : Store) (u : String) (now ttl : Int)
    (g : String) (hU : UsersUnique store) :
    UsersUnique (createToken store u now ttl g).2 := by
  cases hfind : findOneUser store u with
  | some v =>
    show ((createToken store u now ttl g).2.map RTRecord.user).Nodup
    simp only [createToken, hfind]
    rw [updateFirst_map_user (fun r => r.user == u)
      (fun r => { r with token := some g }) (fun x => rfl)]
    exact hU
  | none =>
    show ((createToken store u now ttl g).2.map RTRecord.user).Nodup
    simp only [createToken, hfind]
    rw [List.map_append]
    rw [List.nodup_append]
    refine ⟨hU, by simp, ?_⟩
    intro x hx hx2
    simp only [List.map_cons, List.map_nil, List.mem_singleton] at hx2
    subst hx2
    obtain ⟨y, hy, hyu⟩ := List.mem_map.mp hx
    have := List.find?_eq_none.mp hfind y hy
    rw [beq_iff_eq] at this
    exact this hyu

/-- The store a rotation step leaves behind is either untouched (an
error exit) or the one `createToken` produced for some user. -/
theorem refreshRotate_snd_cases (store : Store) (users : List String)
    (found : Option RTRecord) (now rtl atl : Int) (sec g : String) :
    (refreshRotate store users found now rtl atl sec g).2 = store ∨
    ∃ u, (refreshRotate store users found now rtl atl sec g).2
      = (createToken store u now rtl g).2 := by
  cases found with
  | none => exact Or.inl rfl
  | some tok =>
    cases hexp : verifyExpiration tok now with
    | true =>
      left
      rw [refreshRotate]
      simp [hexp]
    | false =>
      cases huser : users.find? (fun x => x == tok.user) with
      | none =>
        left
        rw [refreshRotate]
        simp [hexp, huser]
      | some u =>
        right
        refine ⟨u, ?_⟩
        rw [refreshRotate]
        simp [hexp, huser]

/-- The store a full `refreshAccessToken` call leaves behind is either
untouched or the one `createToken` produced for some user. -/
theorem refreshAccessToken_snd_cases (store : Store) (users : List String)
    (pres : Option String) (now rtl atl : Int) (sec g : String) :
    (refreshAccessToken store users pres now rtl atl sec g).2 = store ∨
    ∃ u, (refreshAccessToken store users pres now rtl atl sec g).2
      = (createToken store u now rtl g).2 := by
  cases pres with
  | none => exact Or.inl rfl
  | some t =>
    by_cases ht : t = ""
    · left
      simp [refreshAccessToken, ht]
    · rw [show refreshAccessToken store users (some t) now rtl atl sec g
            = refreshRotate store users (refreshLookup store t) now rtl atl
                sec g from by
        simp [refreshAccessToken, ht]]
      exact refreshRotate_snd_cases store users (refreshLookup store t)
        now rtl atl sec g

/-! ## Claims -/

/-- C1: a refresh token that a `refreshAccessToken` call has already
accepted and rotated away is rejected with 401 invalid-refresh-token
when presented a second time: rotation overwrote the stored token value
before the first call responded, and the lookup is by equality with the
stored value.  The hypotheses are the system invariants: users are
unique across records, the presented token value occurs at most once,
and the freshly drawn uuid differs from the presented token. -/
theorem c1_rotated_token_replay_rejected
    (store : Store) (users : List String) (t : String)
    (now rtl atl : Int) (sec g : String) (a : Jwt) (k : String)
    (users2 : List String) (now2 rtl2 atl2 : Int) (sec2 g2 : String)
    (hU : UsersUnique store)
    (hT : store.countP (fun x => x.token == some t) ≤ 1)
    (hg : g ≠ t)
    (h1 : (refreshAccessToken store users (some t) now rtl atl sec g).1 = .success a k) :
    (refreshAccessToken (refreshAccessToken store users (some t) now rtl atl sec g).2
        users2 (some t) now2 rtl2 atl2 sec2 g2).1 = .invalidRefreshToken :=
  rotation_core store users t now rtl atl sec g a k users2 now2 rtl2 atl2 sec2 g2
    hU hT hg h1

/-- C1 witness: a concrete rotated-then-replayed token. -/
theorem c1_rotated_token_replay_rejected_witness :
    (refreshAccessToken
        (refreshAccessToken [⟨"u1", some "t0", 100⟩] ["u1"] (some "t0")
          150 1000 10 "k" "t1").2
        ["u1"] (some "t0") 151 1000 10 "k" "t2").1
      = RefreshResult.invalidRefreshToken :=
  c1_rotated_token_replay_rejected [⟨"u1", some "t0", 100⟩] ["u1"] "t0"
    150 1000 10 "k" "t1" (.signed (some "u1") 160 "k") "t1"
    ["u1"] 151 1000 10 "k" "t2"
    (by decide) (by decide) (by decide) (by decide)

/-- C2: evaluation of the shipped code at the claim's scenario.
`createToken` on an empty store at time 0 with TTL 1000 returns token
`"t0"` and stores it with `expiryDate = 1000`; presenting `"t0"` at
time 500 — before the expiry date — is answered with the 403
expired-token response and no rotation happens, although
`verifyExpiration` itself reports the record as still within its
window (`now < expiryDate`): the controller reads that flag in the
inverted sense. -/
theorem c2_fresh_token_rejected_as_expired :
    createToken [] "u1" 0 1000 "t0" = ("t0", [⟨"u1", some "t0", 1000⟩]) ∧
    verifyExpiration ⟨"u1", some "t0", 1000⟩ 500 = true ∧
    refreshAccessToken [⟨"u1", some "t0", 1000⟩] ["u1"] (some "t0")
        500 1000 10 "k" "t1"
      = (.expiredTokenResp, [⟨"u1", some "t0", 1000⟩]) := by decide

/-- C3: evaluation of the shipped code on a stored record whose
`expiryDate` (100) is before `now` (150): the controller does not fail
with the 403 expired-token response and does not leave the record
unchanged — it rotates the record to the fresh token `"t1"` and answers
success, again because the `expired` flag is read in the inverted
sense. -/
theorem c3_expired_token_rotated_instead_of_rejected :
    refreshAccessToken [⟨"u1", some "t0", 100⟩] ["u1"] (some "t0")
        150 1000 10 "k" "t1"
      = (.success (.signed (some "u1") 160 "k") "t1",
         [⟨"u1", some "t1", 100⟩]) := by decide

/-- C4 counterexample: two `refreshAccessToken` calls presenting the
identical token, interleaved so that both `findOne` lookups happen
before either rotation write (the handler awaits between the lookup and
the save, so this schedule is possible), both answer success — the
claimed at-most-one-success is violated. -/
theorem c4_interleaved_rotations_both_succeed :
    (refreshPairInterleaved [⟨"u1", some "t0", 100⟩] ["u1"] "t0"
        150 1000 10 "k" "tA" "tB").1
      = .success (.signed (some "u1") 160 "k") "tA" ∧
    (refreshPairInterleaved [⟨"u1", some "t0", 100⟩] ["u1"] "t0"
        150 1000 10 "k" "tA" "tB").2.1
      = .success (.signed (some "u1") 160 "k") "tB" := by decide

/-- C4 (amended): when the two calls presenting the identical token run
serialized — the second starts after the first completed — at most one
succeeds: if the first answers success, the second observes 401
invalid-refresh-token.  (The unserialized interleaving refutes the
original atomicity claim.) -/
theorem c4_serialized_rotations_at_most_one_success
    (store : Store) (users : List String) (t : String)
    (now rtl atl : Int) (sec gA gB : String) (a : Jwt) (k : String)
    (hU : UsersUnique store)
    (hT : store.countP (fun x => x.token == some t) ≤ 1)
    (hg : gA ≠ t)
    (h1 : (refreshPairSerialized store users t now rtl atl sec gA gB).1
      = .success a k) :
    (refreshPairSerialized store users t now rtl atl sec gA gB).2.1
      = .invalidRefreshToken := by
  have h2 : (refreshAccessToken store users (some t) now rtl atl sec gA).1
      = .success a k := h1
  exact rotation_core store users t now rtl atl sec gA a k users now rtl atl
    sec gB hU hT hg h2

/-- C4 witness for the amended serialized statement. -/
theorem c4_serialized_rotations_witness :
    (refreshPairSerialized [⟨"u1", some "t0", 100⟩] ["u1"] "t0"
        150 1000 10 "k" "tA" "tB").2.1 = RefreshResult.invalidRefreshToken :=
  c4_serialized_rotations_at_most_one_success [⟨"u1", some "t0", 100⟩] ["u1"]
    "t0" 150 1000 10 "k" "tA" "tB" (.signed (some "u1") 160 "k") "tA"
    (by decide) (by decide) (by decide) (by decide)

/-- C5: the at-most-one-record-per-subject invariant is preserved by
`createToken`, `signOut` and `refreshAccessToken`, and `createToken`
for a subject that already has a record keeps the collection's user
column unchanged — it updates the record in place and never inserts a
second record for the same subject. -/
theorem c5_one_record_per_subject
    (store : Store) (users : List String) (uid : String) (now ttl : Int)
    (g : String) (pres : Option String) (now2 rtl2 atl2 : Int)
    (sec2 g2 : String)
    (hU : UsersUnique store) :
    UsersUnique (createToken store uid now ttl g).2 ∧
    ((findOneUser store uid).isSome →
      ((createToken store uid now ttl g).2).map RTRecord.user
        = store.map RTRecord.user) ∧
    UsersUnique (signOut store uid).2 ∧
    UsersUnique (refreshAccessToken store users pres now2 rtl2 atl2 sec2 g2).2 := by
  refine ⟨usersUnique_createToken store uid now ttl g hU, ?_, ?_, ?_⟩
  · intro hsome
    obtain ⟨v, hv⟩ := Option.isSome_iff_exists.mp hsome
    simp only [createToken, hv]
    exact updateFirst_map_user (fun r => r.user == uid)
      (fun r => { r with token := some g }) (fun x => rfl) store
  · by_cases huid : uid = ""
    · simp only [signOut, huid, if_true]
      exact hU
    · cases hfind : findOneUser store uid with
      | some v =>
        show (((signOut store uid).2).map RTRecord.user).Nodup
        simp only [signOut, huid, if_false, hfind]
        rw [updateFirst_map_user (fun r => r.user == uid)
          (fun r => { r with token := none }) (fun x => rfl)]
        exact hU
      | none =>
        show (((signOut store uid).2).map RTRecord.user).Nodup
        simp only [signOut, huid, if_false, hfind]
        exact hU
  · rcases refreshAccessToken_snd_cases store users pres now2 rtl2 atl2
      sec2 g2 with h | ⟨u, h⟩
    · rw [h]
      exact hU
    · rw [h]
      exact usersUnique_createToken store u now2 rtl2 g2 hU

/-- C5 witness at a concrete store. -/
theorem c5_one_record_per_subject_witness :
    UsersUnique (createToken [⟨"u1", some "t0", 100⟩] "u1" 0 10 "g").2 ∧
    ((createToken [⟨"u1", some "t0", 100⟩] "u1" 0 10 "g").2).map RTRecord.user
      = ([⟨"u1", some "t0", 100⟩] : Store).map RTRecord.user ∧
    UsersUnique (signOut [⟨"u1", some "t0", 100⟩] "u1").2 ∧
    UsersUnique (refreshAccessToken [⟨"u1", some "t0", 100⟩] ["u1"]
      (some "t0") 150 1000 10 "k" "g2").2 :=
  have h := c5_one_record_per_subject [⟨"u1", some "t0", 100⟩] ["u1"] "u1"
    0 10 "g" (some "t0") 150 1000 10 "k" "g2" (by decide)
  ⟨h.1, h.2.1 (by decide), h.2.2.1, h.2.2.2⟩

/-- C6: after `signOut` revokes the subject's record (token set to
null), presenting the previously issued token is answered with 401
invalid-refresh-token; revoking again succeeds and leaves the store
unchanged, and revoking a subject with no record also succeeds. -/
theorem c6_revoke_then_replay_rejected_and_idempotent
    (store : Store) (users : List String) (t S : String)
    (now rtl atl : Int) (sec g : String) (r : RTRecord)
    (hU : UsersUnique store)
    (hT : store.countP (fun x => x.token == some t) ≤ 1)
    (hS : S ≠ "") (ht : t ≠ "")
    (hr : findOneToken store t = some r) (hrS : r.user = S) :
    (signOut store S).1 = true ∧
    (refreshAccessToken (signOut store S).2 users (some t) now rtl atl
        sec g).1 = .invalidRefreshToken ∧
    signOut (signOut store S).2 S = (true, (signOut store S).2) ∧
    (∀ store0 : Store, findOneUser store0 S = none →
      signOut store0 S = (true, store0)) := by
  have hmem : r ∈ store := by
    have hfind : List.find? (fun x => x.token == some t) store = some r := hr
    exact List.mem_of_find?_eq_some hfind
  have hsomeu : (findOneUser store S).isSome := by
    rw [findOneUser, List.find?_isSome]
    exact ⟨r, hmem, by rw [beq_iff_eq]; exact hrS⟩
  obtain ⟨v, hv⟩ := Option.isSome_iff_exists.mp hsomeu
  have hdef : signOut store S =
      (true, updateFirst (fun x => x.user == S)
        (fun x => { x with token := none }) store) := by
    simp [signOut, hS, hv]
  have hnone : findOneToken (updateFirst (fun x => x.user == S)
      (fun x => { x with token := none }) store) t = none :=
    findOneToken_updateFirst_none t S _ (fun x hx => Option.noConfusion hx)
      store hU hT r hr hrS
  refine ⟨by rw [hdef], ?_, ?_, ?_⟩
  · rw [hdef]
    rw [show refreshAccessToken (updateFirst (fun x => x.user == S)
          (fun x => { x with token := none }) store) users (some t) now rtl
          atl sec g
        = refreshRotate (updateFirst (fun x => x.user == S)
            (fun x => { x with token := none }) store) users
            (refreshLookup (updateFirst (fun x => x.user == S)
              (fun x => { x with token := none }) store) t)
            now rtl atl sec g from by
      simp [refreshAccessToken, ht]]
    rw [show refreshLookup (updateFirst (fun x => x.user == S)
          (fun x => { x with token := none }) store) t = none from hnone]
    rfl
  · rw [hdef]
    have hsome2 : (findOneUser (updateFirst (fun x => x.user == S)
        (fun x => { x with token := none }) store) S).isSome := by
      rw [findOneUser_isSome_iff,
        updateFirst_map_user (fun x => x.user == S)
          (fun x => { x with token := none }) (fun x => rfl)]
      exact (findOneUser_isSome_iff store S).mp hsomeu
    obtain ⟨w, hw⟩ := Option.isSome_iff_exists.mp hsome2
    simp only [signOut, hS, if_false, hw]
    rw [updateFirst_idem (fun x => x.user == S)
      (fun x => { x with token := none }) (fun x hx => hx) (fun x => rfl)
      store]
  · intro store0 h0
    simp [signOut, hS, h0]

/-- C6 witness at a concrete store. -/
theorem c6_revoke_then_replay_rejected_witness :
    (signOut [⟨"u1", some "t0", 100⟩] "u1").1 = true ∧
    (refreshAccessToken (signOut [⟨"u1", some "t0", 100⟩] "u1").2 ["u1"]
        (some "t0") 150 1000 10 "k" "g").1
      = RefreshResult.invalidRefreshToken ∧
    signOut (signOut [⟨"u1", some "t0", 100⟩] "u1").2 "u1"
      = (true, (signOut [⟨"u1", some "t0", 100⟩] "u1").2) ∧
    signOut ([] : Store) "u1" = (true, ([] : Store)) :=
  have h := c6_revoke_then_replay_rejected_and_idempotent
    [⟨"u1", some "t0", 100⟩] ["u1"] "t0" "u1" 150 1000 10 "k" "g"
    ⟨"u1", some "t0", 100⟩ (by decide) (by decide) (by decide) (by decide)
    (by decide) (by decide)
  ⟨h.1, h.2.1, h.2.2.1, h.2.2.2 [] (by decide)⟩

/-- C7 counterexample: `createToken` at time 500 with TTL 1000 for a
subject that already has a record leaves the stored `expiryDate` at its
old value 100 instead of setting it to 500 + 1000; only the token value
is replaced. -/
theorem c7_rotation_keeps_old_expiry :
    createToken [⟨"u1", some "t0", 100⟩] "u1" 500 1000 "t1"
      = ("t1", [⟨"u1", some "t1", 100⟩]) ∧ (100 : Int) ≠ 500 + 1000 := by
  decide

/-- C7 (amended): every `createToken` call returns the fresh token; for
a subject with no record it inserts one record with
`expiryDate = now + ttl`; for a subject with an existing record it
replaces only the token value — the record keeps its old `expiryDate`
and no record is inserted. -/
theorem c7_createToken_fresh_token_and_expiry
    (store : Store) (uid : String) (now ttl : Int) (g : String) :
    (createToken store uid now ttl g).1 = g ∧
    (findOneUser store uid = none →
      findOneUser (createToken store uid now ttl g).2 uid
          = some ⟨uid, some g, now + ttl⟩ ∧
      ((createToken store uid now ttl g).2).length = store.length + 1) ∧
    (∀ r, findOneUser store uid = some r →
      findOneUser (createToken store uid now ttl g).2 uid
          = some { r with token := some g } ∧
      ((createToken store uid now ttl g).2).length = store.length) := by
  refine ⟨?_, ?_, ?_⟩
  · cases h : findOneUser store uid <;> simp [createToken, h]
  · intro h
    constructor
    · show findOneUser ((createToken store uid now ttl g).2) uid = _
      simp only [createToken, h]
      rw [findOneUser, List.find?_append]
      rw [show List.find? (fun x => x.user == uid) store = none from h]
      rw [show (none : Option RTRecord).or (List.find? (fun x => x.user == uid)
            [RTRecord.mk uid (some g) (now + ttl)])
          = List.find? (fun x => x.user == uid)
            [RTRecord.mk uid (some g) (now + ttl)] from rfl]
      rw [@List.find?_cons_of_pos _ (fun x => x.user == uid)
        (RTRecord.mk uid (some g) (now + ttl)) [] (by rw [beq_iff_eq])]
    · simp [createToken, h]
  · intro r hr
    constructor
    · show findOneUser ((createToken store uid now ttl g).2) uid = _
      simp only [createToken, hr]
      exact findOneUser_updateFirst uid
        (fun x => { x with token := some g }) (fun x => rfl) store r hr
    · simp only [createToken, hr]
      exact updateFirst_length _ _ store

/-- C7 witness for the amended statement, in both the existing-record
and the no-record case. -/
theorem c7_createToken_fresh_token_and_expiry_witness :
    (createToken [⟨"u1", some "t0", 100⟩] "u1" 500 1000 "t1").1 = "t1" ∧
    findOneUser (createToken [⟨"u1", some "t0", 100⟩] "u1" 500 1000 "t1").2 "u1"
      = some ⟨"u1", some "t1", 100⟩ ∧
    findOneUser (createToken ([] : Store) "u2" 0 50 "t9").2 "u2"
      = some ⟨"u2", some "t9", 50⟩ :=
  have h1 := c7_createToken_fresh_token_and_expiry
    [⟨"u1", some "t0", 100⟩] "u1" 500 1000 "t1"
  have h2 := c7_createToken_fresh_token_and_expiry ([] : Store) "u2" 0 50 "t9"
  ⟨h1.1, (h1.2.2 ⟨"u1", some "t0", 100⟩ (by decide)).1, (h2.2.1 (by decide)).1⟩

/-- C8: access-token round trip. Issuing a token for subject `S` at
time `t0` with TTL `ttl` and verifying it before `t0 + ttl` yields
`S`; verifying it once the TTL has elapsed fails with the
expired-token error. -/
theorem c8_access_token_round_trip (S sec : String) (t0 ttl t : Int) :
    (t < t0 + ttl →
      verifyAccessToken (generateAccessToken S sec t0 ttl) sec t
        = .ok (some S)) ∧
    (t0 + ttl ≤ t →
      verifyAccessToken (generateAccessToken S sec t0 ttl) sec t
        = .error .expiredToken) := by
  constructor
  · intro h
    simp [verifyAccessToken, generateAccessToken, jwtVerify, verifyCallback,
      show ¬(t0 + ttl ≤ t) from not_le.mpr h]
  · intro h
    simp [verifyAccessToken, generateAccessToken, jwtVerify, verifyCallback,
      isTokenExpiredError, h]

/-- C8 witness: round trip at concrete times 5 (inside the window) and
11 (one past `t0 + ttl = 10`). -/
theorem c8_access_token_round_trip_witness :
    verifyAccessToken (generateAccessToken "u" "k" 0 10) "k" 5
      = .ok (some "u") ∧
    verifyAccessToken (generateAccessToken "u" "k" 0 10) "k" 11
      = .error .expiredToken :=
  ⟨(c8_access_token_round_trip "u" "k" 0 10 5).1 (by decide),
   (c8_access_token_round_trip "u" "k" 0 10 11).2 (by decide)⟩

/-- C9 counterexample: a token signed with the server's secret and not
expired, whose payload lacks a subject identifier, is accepted —
`verifyAccessToken` resolves the missing `payload.uid` instead of
failing with the bad-token (malformed) error the claim requires. -/
theorem c9_token_without_subject_accepted :
    verifyAccessToken (.signed none 100 "k") "k" 0 = .ok none ∧
    verifyAccessToken (.signed none 100 "k") "k" 0
      ≠ .error .badToken :=
  ⟨rfl, fun h => Except.noConfusion h⟩

/-- C9 (amended): the dispatch `verifyAccessToken` actually implements.
An unparseable token or a wrong-secret signature fails with bad-token;
a valid signature past its expiry fails with expired-token; a valid
unexpired signature succeeds and returns the embedded `uid` field even
when it is absent (no store is consulted — none is passed); and the
unknown-token-error branch is unreachable: for any callback input
respecting the library contract (error exactly when payload is absent)
it is never returned, other internal failures landing on bad-token. -/
theorem c9_verify_dispatch (sec : String) (now : Int) :
    (∀ raw, verifyAccessToken (.malformed raw) sec now
      = .error .badToken) ∧
    (∀ uid exp s, s ≠ sec →
      verifyAccessToken (.signed uid exp s) sec now = .error .badToken) ∧
    (∀ uid exp, exp ≤ now →
      verifyAccessToken (.signed uid exp sec) sec now
        = .error .expiredToken) ∧
    (∀ uid exp, now < exp →
      verifyAccessToken (.signed uid exp sec) sec now = .ok uid) ∧
    (∀ err payload, (err.isSome ↔ payload.isNone) →
      verifyCallback err payload ≠ .error .unknownTokenError) := by
  refine ⟨?_, ?_, ?_, ?_, ?_⟩
  · intro raw
    rfl
  · intro uid exp s h
    simp [verifyAccessToken, jwtVerify, verifyCallback, isTokenExpiredError,
      isJsonWebTokenError, h]
  · intro uid exp h
    simp [verifyAccessToken, jwtVerify, verifyCallback, isTokenExpiredError,
      h]
  · intro uid exp h
    simp [verifyAccessToken, jwtVerify, verifyCallback,
      show ¬(exp ≤ now) from not_le.mpr h]
  · intro err payload hiff
    cases err with
    | none =>
      cases payload with
      | none => simp at hiff
      | some p => simp [verifyCallback]
    | some e =>
      cases payload with
      | some p => simp at hiff
      | none =>
        cases e <;>
          simp [verifyCallback, isTokenExpiredError, isJsonWebTokenError]

/-- C9 witness for the amended dispatch at concrete inputs. -/
theorem c9_verify_dispatch_witness :
    verifyAccessToken (.malformed "zz") "k" 0 = .error .badToken ∧
    verifyAccessToken (.signed (some "u") 50 "wrong") "k" 0
      = .error .badToken ∧
    verifyAccessToken (.signed (some "u") 50 "k") "k" 50
      = .error .expiredToken ∧
    verifyAccessToken (.signed (some "u") 50 "k") "k" 49 = .ok (some "u") ∧
    verifyCallback (some .other) none ≠ .error .unknownTokenError :=
  have h := c9_verify_dispatch "k" 0
  have h50 := c9_verify_dispatch "k" 50
  have h49 := c9_verify_dispatch "k" 49
  ⟨h.1 "zz", h.2.1 (some "u") 50 "wrong" (by decide),
   (h50.2.2.1) (some "u") 50 (by decide),
   (h49.2.2.2.1) (some "u") 50 (by decide),
   h.2.2.2.2 (some .other) none (by decide)⟩

/-- C10: when the presented token matches a stored record and control
passes the expiry gate but the owning user is not in the user store,
`refreshAccessToken` answers 401 invalid-refresh-token and leaves the
refresh-token store unchanged — no rotation happens. -/
theorem c10_missing_user_rejected_store_unchanged
    (store : Store) (users : List String) (t : String)
    (now rtl atl : Int) (sec g : String) (r : RTRecord)
    (ht : t ≠ "")
    (hr : findOneToken store t = some r)
    (hgate : verifyExpiration r now = false)
    (hu : users.find? (fun u => u == r.user) = none) :
    refreshAccessToken store users (some t) now rtl atl sec g
      = (.invalidRefreshToken, store) := by
  rw [show refreshAccessToken store users (some t) now rtl atl sec g
        = refreshRotate store users (refreshLookup store t) now rtl atl
            sec g from by
    simp [refreshAccessToken, ht]]
  rw [show refreshLookup store t = some r from hr]
  rw [refreshRotate]
  simp [hgate, hu]

/-- C10 witness: the record matches, the expiry gate passes, the user
store is empty. -/
theorem c10_missing_user_rejected_witness :
    refreshAccessToken [⟨"u1", some "t0", 100⟩] [] (some "t0")
        150 1000 10 "k" "g"
      = (RefreshResult.invalidRefreshToken, [⟨"u1", some "t0", 100⟩]) :=
  c10_missing_user_rejected_store_unchanged [⟨"u1", some "t0", 100⟩] []
    "t0" 150 1000 10 "k" "g" ⟨"u1", some "t0", 100⟩
    (by decide) (by decide) (by decide) (by decide)

end Starburst
